import Mathlib

/-!
Shallow embedding of the MATRXS grid-world simulation kernel found in this
repository, together with theorems settling the specification claims.

Source files embedded here:
  * src/environment/gridworld.py          (GridWorld: step, registration, grid,
                                           sensing query, goal check, perform action)
  * src/matrxs/actions/move_actions.py    (possible_movement, act_move, Move classes)
  * src/environment/objects/agent_avatar.py (AgentAvatar: busy check, property
                                           whitelist, location setter with carry cascade)
  * src/matrxs/agents/capabilities/capability.py (SenseCapability)
  * src/matrxs/utils/agent_utils/state_tracker.py (StateTracker)
  * src/environment/actions/door_actions.py (OpenDoorAction)

Modelling conventions:
  * Python OrderedDict registries become association lists (key order =
    insertion order); lookups are List.find? on the id.
  * Python numbers: ticks and durations are Nat, grid coordinates are Int,
    sensing ranges and decay values are exact rationals; numpy.inf is a
    dedicated constructor of the Radius type.
  * Euclidean range tests "math.sqrt(sum of squares) <= r" are embedded as
    "0 <= r and (sum of squares) <= r * r", which is equivalent over the reals.
  * Python exceptions (raise, KeyError, NameError, TypeError, AssertionError)
    become Except.error results.
-/

namespace Matrxs

/-- Object / agent identifier (obj_id strings in the source). -/
abbrev OId := String

/-- A grid location: integer (x, y) pair. -/
abbrev Loc := Int × Int

/-- Squared Euclidean distance between two locations.  The source
(gridworld.py, GridWorld.__get_distance and matrxs/utils/utils.py get_distance)
computes math.sqrt of this sum; we keep the square to stay in exact arithmetic. -/
def sqDist (a b : Loc) : Int :=
  (a.1 - b.1) ^ 2 + (a.2 - b.2) ^ 2

/-- A sensing range: either a finite numeric value or numpy.inf
(capability.py stores np.inf for non-positive ranges of named types). -/
inductive Radius where
  | val (q : ℚ)
  | infty
deriving DecidableEq, Repr

/-- Embedding of "distance <= sense_range" where distance = sqrt (sqDist a b):
for a finite range q this holds iff 0 <= q and sqDist a b <= q * q; np.inf
compares greater or equal to everything. -/
def distLE (a b : Loc) : Radius → Bool
  | .val q => decide ((0 : ℚ) ≤ q) && decide (((sqDist a b : ℤ) : ℚ) ≤ q * q)
  | .infty => true

/-- Environment object (EnvObject registered in GridWorld.environment_objects).
The EnvObject class itself lives in environment/objects/env_object.py which is
not part of the sources; the fields here are the ones agent_avatar.py,
gridworld.py, move_actions.py and door_actions.py read from it: obj_id,
location, is_traversable, its class inheritance chain (used by isinstance
checks and class_inheritance properties), and the "type" / "door_open" /
"colour" property entries used by the door action. -/
structure EnvObjModel where
  objId : OId
  location : Loc
  isTraversable : Bool
  classInheritance : List String
  objType : Option String
  doorOpen : Bool
  colour : String
deriving DecidableEq, Repr

/-- Registered agent as the grid world sees it (the subset of AgentAvatar state
that gridworld.py and move_actions.py read on the world level: id, location,
traversability, class chain, action set, and the busy bookkeeping fields set by
set_agent_busy / read by check_agent_busy). -/
structure AgentModel where
  objId : OId
  location : Loc
  isTraversable : Bool
  classInheritance : List String
  actionSet : List String
  lastActionTick : Nat
  lastActionDuration : Nat
  agentSpeedInTicks : Nat
deriving DecidableEq, Repr

/-- The GridWorld state relevant to the claims: shape = (width, height) as in
shape[0] / shape[1], the two ordered registries, and the tick counter.  The
grid array is not stored: the source rebuilds it from the registries
(GridWorld.__update_grid) after every applied action, so we always read it
through occupantsAt below. -/
structure World where
  shape : Nat × Nat
  environmentObjects : List EnvObjModel
  registeredAgents : List AgentModel
  currentTick : Nat
deriving DecidableEq, Repr

/-- Lookup in registered_agents (OrderedDict access by key). -/
def findAgent (w : World) (aid : OId) : Option AgentModel :=
  w.registeredAgents.find? (fun a => a.objId == aid)

/-- Lookup in environment_objects (OrderedDict access by key). -/
def findObject (w : World) (oid : OId) : Option EnvObjModel :=
  w.environmentObjects.find? (fun o => o.objId == oid)

/-- Occupant id list of a cell, in the insertion order produced by
GridWorld.__update_grid: all environment objects at the cell in registration
order, then all agents at the cell in registration order.  An empty cell is
stored as None in the source and yields the empty list here; both mean "no
occupants" in every consumer. -/
def occupantsAt (w : World) (c : Loc) : List OId :=
  (w.environmentObjects.filter (fun o => o.location == c)).map EnvObjModel.objId
    ++ (w.registeredAgents.filter (fun a => a.location == c)).map AgentModel.objId

/-- The possible outcomes of possible_movement / act_move
(move_actions.py, MoveActionResult RESULT_* constants). -/
inductive MoveResult where
  | success
  | noMove
  | occupied
  | notPassableObject
  | outOfBounds
deriving DecidableEq, Repr

/-- The succeeded flag of the corresponding MoveActionResult. -/
def MoveResult.succeeded : MoveResult → Bool
  | .success => true
  | _ => false

/-- Bounds test "0 <= new_loc[0] < shape[0] and 0 <= new_loc[1] < shape[1]"
(move_actions.py line 51). -/
def inBounds (w : World) (c : Loc) : Bool :=
  decide (0 ≤ c.1) && decide (c.1 < (w.shape.1 : Int)) &&
    decide (0 ≤ c.2) && decide (c.2 < (w.shape.2 : Int))

/-- The occupant-inspection loop of possible_movement (move_actions.py lines
58-84).  For each occupant id in insertion order: first the agent branch (the
actor itself yields RESULT_NO_MOVE, an intraversable other agent yields
RESULT_OCCUPIED), then, when the agent branch falls through, the object branch
(an intraversable environment object yields RESULT_NOT_PASSABLE_OBJECT);
reaching the end of the list yields RESULT_SUCCESS. -/
def inspectOccupants (w : World) (agentId : OId) : List OId → MoveResult
  | [] => .success
  | locObjId :: rest =>
    let agentHit : Option MoveResult :=
      match findAgent w locObjId with
      | some locObj =>
        if locObjId == agentId then some .noMove
        else if locObj.isTraversable == false then some .occupied
        else none
      | none => none
    match agentHit with
    | some r => r
    | none =>
      let objHit : Option MoveResult :=
        match findObject w locObjId with
        | some locObj =>
          if locObj.isTraversable == false then some .notPassableObject else none
        | none => none
      match objHit with
      | some r => r
      | none => inspectOccupants w agentId rest

/-- possible_movement (move_actions.py lines 37-86).  The source asserts that
the acting avatar exists; a missing avatar is modelled as none. -/
def possibleMovement (w : World) (agentId : OId) (dx dy : Int) : Option MoveResult :=
  match findAgent w agentId with
  | none => none
  | some av =>
    let newLoc : Loc := (av.location.1 + dx, av.location.2 + dy)
    if inBounds w newLoc then
      some (inspectOccupants w agentId (occupantsAt w newLoc))
    else
      some .outOfBounds

/-- The eight built-in move action classes (move_actions.py MoveNorth ..
MoveNorthWest), each a Move with a fixed (dx, dy) offset and
duration_in_ticks = 1. -/
inductive MoveAction where
  | north
  | northEast
  | east
  | southEast
  | south
  | southWest
  | west
  | northWest
deriving DecidableEq, Repr

/-- The dx offset of each move class. -/
def MoveAction.dx : MoveAction → Int
  | .north => 0
  | .northEast => 1
  | .east => 1
  | .southEast => 1
  | .south => 0
  | .southWest => -1
  | .west => -1
  | .northWest => -1

/-- The dy offset of each move class. -/
def MoveAction.dy : MoveAction → Int
  | .north => -1
  | .northEast => -1
  | .east => 0
  | .southEast => 1
  | .south => 1
  | .southWest => 1
  | .west => 0
  | .northWest => -1

/-- The Python class name of each move class, as it appears in an agent's
action_set and in the all_actions registry. -/
def MoveAction.className : MoveAction → String
  | .north => "MoveNorth"
  | .northEast => "MoveNorthEast"
  | .east => "MoveEast"
  | .southEast => "MoveSouthEast"
  | .south => "MoveSouth"
  | .southWest => "MoveSouthWest"
  | .west => "MoveWest"
  | .northWest => "MoveNorthWest"

/-- duration_in_ticks of a Move action (move_actions.py Move default). -/
def MoveAction.durationInTicks : MoveAction → Nat
  | _ => 1

/-- Replace the location of the agent with the given id
(act_move assigns registered_agents[agent_id].location = new_loc; the
AgentAvatar location setter also runs its carry cascade, which for avatars
without a custom "carrying" property - all avatars in this model - only stores
the new location; the cascade itself is embedded with the avatar model below). -/
def updateAgentLocation (w : World) (agentId : OId) (newLoc : Loc) : World :=
  { w with registeredAgents :=
      w.registeredAgents.map (fun a =>
        if a.objId == agentId then { a with location := newLoc } else a) }

/-- act_move (move_actions.py lines 5-21): relocate the actor by (dx, dy) and
report success. -/
def actMove (w : World) (agentId : OId) (dx dy : Int) : World × MoveResult :=
  match findAgent w agentId with
  | none => (w, .success)
  | some av =>
    (updateAgentLocation w agentId (av.location.1 + dx, av.location.2 + dy), .success)

/-- set_agent_busy (agent_avatar.py lines 131-136): record the started tick and
duration of the action just applied. -/
def setAgentBusy (w : World) (agentId : OId) (currTick actionDuration : Nat) : World :=
  { w with registeredAgents :=
      w.registeredAgents.map (fun a =>
        if a.objId == agentId then
          { a with lastActionTick := currTick, lastActionDuration := actionDuration }
        else a) }

/-- check_agent_busy (agent_avatar.py lines 138-144):
blocked = not (curr_tick >= tick + duration and curr_tick >= tick + speed). -/
def checkAgentBusy (a : AgentModel) (currTick : Nat) : Bool :=
  !(decide (a.lastActionTick + a.lastActionDuration ≤ currTick) &&
    decide (a.lastActionTick + a.agentSpeedInTicks ≤ currTick))

/-- The action results produced by GridWorld.__perform_action for the action
kinds exercised by the claims (a buffered built-in move, or no action). -/
inductive PerformResult where
  | agentWasRemoved
  | noActionGiven
  | agentNotCapable
  | moveRes (r : MoveResult)
deriving DecidableEq, Repr

/-- GridWorld.__perform_action (gridworld.py lines 427-477) specialised to the
action kinds the claims exercise: a removed agent yields AGENT_WAS_REMOVED; a
None action yields NO_ACTION_GIVEN with no world change; a move outside the
agent's action_set yields AGENT_NOT_CAPABLE; otherwise is_possible
(possible_movement) gates mutate (act_move), and on a performed action the
agent is set busy for the action's duration.  The source then rebuilds the
cached grid from the registries (step calls __update_grid after each action),
which occupantsAt models by always deriving occupants from locations.
The ActionResult succeeded flag consumed by "is_possible[0]" is
MoveResult.succeeded. -/
def performAction (w : World) (agentId : OId) (act : Option MoveAction) :
    World × PerformResult :=
  match findAgent w agentId with
  | none => (w, .agentWasRemoved)
  | some av =>
    match act with
    | none => (w, .noActionGiven)
    | some m =>
      if av.actionSet.contains m.className = false then
        (w, .agentNotCapable)
      else
        match possibleMovement w agentId m.dx m.dy with
        | none => (w, .agentWasRemoved)
        | some r =>
          if r.succeeded then
            let mutated := actMove w agentId m.dx m.dy
            (setAgentBusy mutated.1 agentId w.currentTick m.durationInTicks,
              .moveRes mutated.2)
          else
            (w, .moveRes r)

/-- The decision phase of GridWorld.step (gridworld.py lines 133-172): iterate
over registered agents in registration order; an agent that is busy at the
current tick only runs its observe callback and contributes nothing to the
action buffer; every other agent is asked for a decision and its
(agent id, chosen action) pair is appended to the ordered buffer.  The external
decision policy is the parameter decideFn; property updates returned by the
policy go through set_agent_changed_properties, embedded with the avatar model
below (the world-level model covers policies that return their properties
unchanged, which is a no-op there). -/
def decisionPhase (w : World) (decideFn : OId → Option MoveAction) :
    List (OId × Option MoveAction) :=
  (w.registeredAgents.filter (fun a => checkAgentBusy a w.currentTick == false)).map
    (fun a => (a.objId, decideFn a.objId))

/-- The application phase of GridWorld.step (gridworld.py lines 180-194):
perform the buffered actions in buffer order, updating the world (and the
derived grid) after each one, collecting each agent's ActionResult. -/
def applyBuffer (w : World) : List (OId × Option MoveAction) →
    World × List (OId × PerformResult)
  | [] => (w, [])
  | (aid, act) :: rest =>
    let res := performAction w aid act
    let tail := applyBuffer res.1 rest
    (tail.1, (aid, res.2) :: tail.2)

/-- One tick of decisions plus applications: the buffer is computed from the
pre-tick world in full before any buffered action is applied, exactly as in
GridWorld.step where the first for-loop finishes before the second begins. -/
def tickActions (w : World) (decideFn : OId → Option MoveAction) :
    World × List (OId × PerformResult) :=
  applyBuffer w (decisionPhase w decideFn)

/-- The simulation_goal attribute: None, a single goal object, or a list of
goal objects; goal_reached is each goal object's predicate over the world. -/
inductive SimulationGoal where
  | noGoal
  | single (g : World → Bool)
  | goalList (gs : List (World → Bool))

/-- The loop of GridWorld.check_simulation_goal over a goal list (gridworld.py
lines 272-276): return False as soon as one goal is not reached; when the loop
finishes the function falls through to its final "return False". -/
def goalListLoop (w : World) : List (World → Bool) → Bool
  | [] => false
  | g :: rest => if g w == false then false else goalListLoop w rest

/-- check_simulation_goal (gridworld.py lines 269-280). -/
def checkSimulationGoal (goal : SimulationGoal) (w : World) : Bool :=
  match goal with
  | .noGoal => false
  | .single g => g w
  | .goalList gs => goalListLoop w gs

/-- GridWorld.step (gridworld.py lines 116-219) restricted to its state
transitions: evaluate the goal first and return immediately when done;
otherwise run the decision phase, apply the buffer, and advance the tick
counter.  Wall-clock pacing, visualisation and the per-object update hooks
(update_properties lives in env_object.py, outside the sources) do not touch
the embedded state. -/
def stepWorld (goal : SimulationGoal) (decideFn : OId → Option MoveAction)
    (w : World) : World × Bool :=
  if checkSimulationGoal goal w then (w, true)
  else
    let applied := tickActions w decideFn
    ({ applied.1 with currentTick := applied.1.currentTick + 1 }, false)

/-- An entity in the sensing query result: an environment object or an agent
(gridworld.py get_objects_in_range looks at both registries). -/
inductive Entity where
  | obj (o : EnvObjModel)
  | agent (a : AgentModel)
deriving DecidableEq, Repr

/-- Location of an entity. -/
def Entity.location : Entity → Loc
  | .obj o => o.location
  | .agent a => a.location

/-- Traversability flag of an entity. -/
def Entity.isTraversable : Entity → Bool
  | .obj o => o.isTraversable
  | .agent a => a.isTraversable

/-- Class inheritance chain of an entity (what Python isinstance inspects). -/
def Entity.classInheritance : Entity → List String
  | .obj o => o.classInheritance
  | .agent a => a.classInheritance

/-- Identifier of an entity. -/
def Entity.objId : Entity → OId
  | .obj o => o.objId
  | .agent a => a.objId

/-- The object_type argument of get_objects_in_range: Python None, the
wildcard string, or a class used in an isinstance check. -/
inductive TypeFilter where
  | noneF
  | wildcard
  | ofClass (t : String)
deriving DecidableEq, Repr

/-- The type test of get_objects_in_range (gridworld.py lines 254 and 264):
object_type is None or object_type == "*" or isinstance(env_obj, object_type);
isinstance is membership of the class in the entity's inheritance chain. -/
def typeMatches (tf : TypeFilter) (e : Entity) : Bool :=
  match tf with
  | .noneF => true
  | .wildcard => true
  | .ofClass t => e.classInheritance.contains t

/-- get_objects_in_range (gridworld.py lines 240-267): every environment
object, then every agent, whose type matches and whose Euclidean distance from
agent_loc is <= sense_range, keyed by id in iteration order. -/
def getObjectsInRange (w : World) (agentLoc : Loc) (tf : TypeFilter)
    (senseRange : Radius) : List (OId × Entity) :=
  (w.environmentObjects.filter (fun o =>
      typeMatches tf (.obj o) && distLE o.location agentLoc senseRange)).map
    (fun o => (o.objId, .obj o))
  ++ (w.registeredAgents.filter (fun a =>
      typeMatches tf (.agent a) && distLE a.location agentLoc senseRange)).map
    (fun a => (a.objId, .agent a))

/-- All entities of the world, objects first, matching the iteration order of
get_objects_in_range. -/
def entitiesOf (w : World) : List Entity :=
  w.environmentObjects.map Entity.obj ++ w.registeredAgents.map Entity.agent

/-- One input entry of SenseCapability.__init__: an object type key (Python
None for the detect-everything key, otherwise a class name) and its range. -/
abbrev SenseEntry := Option String × Radius

/-- Dictionary assignment on an association list: update in place when the key
exists, else append. -/
def dictSetRange (m : List (String × Radius)) (k : String) (v : Radius) :
    List (String × Radius) :=
  if (m.map Prod.fst).contains k then
    m.map (fun p => if p.1 == k then (k, v) else p)
  else
    m ++ [(k, v)]

/-- SenseCapability.__init__ (capability.py lines 11-29): iterate over the
given entries; a None key replaces the whole mapping by the single wildcard
entry with the given range as is and stops the loop; a named key is stored
with its range when positive and with np.inf otherwise. -/
def senseCapabilityInit : List SenseEntry → List (String × Radius) →
    List (String × Radius)
  | [], acc => acc
  | (none, r) :: _, _ => [("*", r)]
  | (some t, r) :: rest, acc =>
    let stored : Radius :=
      match r with
      | .val q => if 0 < q then .val q else .infty
      | .infty => .infty
    senseCapabilityInit rest (dictSetRange acc t stored)

/-- The detectable-objects mapping a SenseCapability built from the given
entries exposes through get_capabilities. -/
def senseCapability (entries : List SenseEntry) : List (String × Radius) :=
  senseCapabilityInit entries []

/-- validate_obj_placement (gridworld.py lines 96-114): collect the entities
within range 0 of the newcomer's location via get_objects_in_range with the
wildcard type, keep the intraversable ones, and reject when the newcomer is
intraversable and that list is non-empty. -/
def validateObjPlacement (w : World) (e : Entity) : Except String Unit :=
  let objsAtLoc := getObjectsInRange w e.location .wildcard (.val 0)
  let intraversableObjs :=
    (objsAtLoc.filter (fun p => p.2.isTraversable == false)).map
      (fun p => p.2.objId)
  if e.isTraversable == false && decide (0 < intraversableObjs.length) then
    .error "Invalid placement: location already occupied by intraversable object"
  else
    .ok ()

/-- register_agent (gridworld.py lines 57-81) restricted to world state:
validate the placement, then insert the avatar into registered_agents.  The
factory initialisation call goes to the external agent brain. -/
def registerAgent (w : World) (a : AgentModel) : Except String World :=
  match validateObjPlacement w (.agent a) with
  | .error s => .error s
  | .ok _ => .ok { w with registeredAgents := w.registeredAgents ++ [a] }

/-- register_env_object (gridworld.py lines 85-94): validate the placement,
then insert the object into environment_objects. -/
def registerEnvObject (w : World) (o : EnvObjModel) : Except String World :=
  match validateObjPlacement w (.obj o) with
  | .error s => .error s
  | .ok _ => .ok { w with environmentObjects := w.environmentObjects ++ [o] }

/-- Number of intraversable occupants of a cell. -/
def intraversableCount (w : World) (c : Loc) : Nat :=
  (w.environmentObjects.countP (fun o =>
      o.location == c && o.isTraversable == false))
  + (w.registeredAgents.countP (fun a =>
      a.location == c && a.isTraversable == false))

/-- The occupancy invariant: every cell holds at most one intraversable
occupant. -/
def OccupancyInv (w : World) : Prop :=
  ∀ c : Loc, intraversableCount w c ≤ 1

/-- All ids of the world, objects first then agents (uniqueness of this list
is the id-uniqueness invariant of the kernel). -/
def worldIds (w : World) : List OId :=
  w.environmentObjects.map EnvObjModel.objId ++ w.registeredAgents.map AgentModel.objId

/-- A property value of a plain environment object snapshot.
Modelled from the spec: EnvObject.properties lives in env_object.py, which is
outside the sources; per the spec's Entity data model a snapshot carries the
id, location, traversability flag, class chain and holder set. -/
inductive EPVal where
  | eStr (s : String)
  | eInt (z : Int)
  | eBool (b : Bool)
  | eLoc (p : Loc)
  | eStrs (l : List String)
deriving DecidableEq, Repr

/-- Property snapshot of an environment object.
Modelled from the spec: the EnvObject.properties getter is outside the
sources; the snapshot exposes the Entity base fields named by the spec. -/
def envObjProperties (o : EnvObjModel) : List (String × EPVal) :=
  [("obj_id", .eStr o.objId),
   ("location", .eLoc o.location),
   ("is_traversable", .eBool o.isTraversable),
   ("class_inheritance", .eStrs o.classInheritance)]

/-- A property value of an agent avatar: the value shapes that occur in
AgentAvatar.properties and in the change_property branches
(strings, ints, floats, bools, locations, string lists, a sense-capability
mapping, the visualization sub-dictionary, a list of carried EnvObjects, and a
list of carried-object property snapshots). -/
inductive PVal where
  | pStr (s : String)
  | pInt (z : Int)
  | pRat (q : ℚ)
  | pBool (b : Bool)
  | pLoc (p : Loc)
  | pStrs (l : List String)
  | pSense (l : List (String × Radius))
  | pVis (size : ℚ) (shape : Int) (colour : String) (depth : Int)
  | pEnvObjs (l : List EnvObjModel)
  | pEnvProps (l : List (List (String × EPVal)))
deriving DecidableEq, Repr

/-- Dictionary assignment on an avatar property map: update in place when the
key exists, else append. -/
def dictSetP (m : List (String × PVal)) (k : String) (v : PVal) :
    List (String × PVal) :=
  if (m.map Prod.fst).contains k then
    m.map (fun p => if p.1 == k then (k, v) else p)
  else
    m ++ [(k, v)]

/-- Dictionary lookup on an avatar property map. -/
def dictGetP (m : List (String × PVal)) (k : String) : Option PVal :=
  (m.find? (fun p => p.1 == k)).map Prod.snd

/-- The full AgentAvatar state (agent_avatar.py): the mandatory attributes,
the free-form custom property dictionary, the writable-property whitelist
customizable_properties (a list of attribute names), the carried-object list
is_carrying, and the busy bookkeeping. -/
structure AgentAvatar where
  objId : OId
  objName : String
  privateLocation : Loc
  isTraversable : Bool
  isMovable : Bool
  isHumanAgent : Bool
  team : String
  agentSpeedInTicks : Int
  classInheritance : List String
  actionSet : List String
  carriedBy : List OId
  isCarrying : List EnvObjModel
  senseCapability : List (String × Radius)
  visualizeSize : ℚ
  visualizeShape : Int
  visualizeColour : String
  visualizeDepth : Int
  customProperties : List (String × PVal)
  customizableProperties : List String
  lastActionTick : Nat
  lastActionDuration : Nat
deriving DecidableEq, Repr

/-- The AgentAvatar.properties getter (agent_avatar.py lines 266-301): a copy
of the custom properties, then the mandatory entries assigned in source order;
"is_carrying" maps each carried object to its property snapshot and
"visualization" bundles the four visualize attributes. -/
def propertiesMap (a : AgentAvatar) : List (String × PVal) :=
  let m0 := a.customProperties
  let m1 := dictSetP m0 "team" (.pStr a.team)
  let m2 := dictSetP m1 "name" (.pStr a.objName)
  let m3 := dictSetP m2 "obj_id" (.pStr a.objId)
  let m4 := dictSetP m3 "location" (.pLoc a.privateLocation)
  let m5 := dictSetP m4 "is_movable" (.pBool a.isMovable)
  let m6 := dictSetP m5 "action_set" (.pStrs a.actionSet)
  let m7 := dictSetP m6 "carried_by" (.pStrs a.carriedBy)
  let m8 := dictSetP m7 "is_human_agent" (.pBool a.isHumanAgent)
  let m9 := dictSetP m8 "is_traversable" (.pBool a.isTraversable)
  let m10 := dictSetP m9 "class_inheritance" (.pStrs a.classInheritance)
  let m11 := dictSetP m10 "agent_speed_in_ticks" (.pInt a.agentSpeedInTicks)
  let m12 := dictSetP m11 "is_carrying" (.pEnvProps (a.isCarrying.map envObjProperties))
  let m13 := dictSetP m12 "sense_capability" (.pSense a.senseCapability)
  dictSetP m13 "visualization"
    (.pVis a.visualizeSize a.visualizeShape a.visualizeColour a.visualizeDepth)

/-- The AgentAvatar.location setter (agent_avatar.py lines 238-264): store the
new location, then run the carry cascade - but only when the key "carrying" is
among the property keys; the getter exposes the carried objects under
"is_carrying", so without a custom property literally named "carrying" the
setter returns before touching any carried object.  When a custom "carrying"
property does exist, the source assigns a location to each of its elements,
which only works for EnvObject values (pEnvObjs); any other value raises
AttributeError. -/
def setAvatarLocation (a : AgentAvatar) (loc : Loc) : Except String AgentAvatar :=
  let a1 := { a with privateLocation := loc }
  let props := propertiesMap a1
  if (props.map Prod.fst).contains "carrying" = false then
    .ok a1
  else
    match dictGetP props "carrying" with
    | some (.pEnvObjs carriedObjs) =>
      if carriedObjs.isEmpty then
        .ok a1
      else
        let movedVal := PVal.pEnvObjs (carriedObjs.map (fun o => { o with location := loc }))
        .ok { a1 with customProperties := dictSetP a1.customProperties "carrying" movedVal }
    | _ => .error "AttributeError: location assigned on a value that is not an EnvObject list"

/-- AgentAvatar.change_property (agent_avatar.py lines 173-228).  A custom
property is "changed simply in the dictionary" per the comment, but the
assignment target is customizable_properties - the whitelist, a list of
strings - so indexing it with the property name raises TypeError.  Otherwise
the mandatory elif chain assigns the attribute after an isinstance assert
(embedded as requiring the matching PVal constructor); an unknown name falls
through with no change. -/
def changeProperty (a : AgentAvatar) (k : String) (v : PVal) :
    Except String AgentAvatar :=
  if (a.customProperties.map Prod.fst).contains k then
    .error "TypeError: list indices must be integers or slices, not str"
  else if k == "is_traversable" then
    match v with
    | .pBool b => .ok { a with isTraversable := b }
    | _ => .error "AssertionError"
  else if k == "name" then
    match v with
    | .pStr s => .ok { a with objName := s }
    | _ => .error "AssertionError"
  else if k == "location" then
    match v with
    | .pLoc p => .ok { a with privateLocation := p }
    | _ => .error "AssertionError"
  else if k == "class_inheritance" then
    match v with
    | .pStrs l => .ok { a with classInheritance := l }
    | _ => .error "AssertionError"
  else if k == "visualize_size" then
    match v with
    | .pInt z => .ok { a with visualizeSize := (z : ℚ) }
    | _ => .error "AssertionError"
  else if k == "visualize_colour" then
    match v with
    | .pStr s => .ok { a with visualizeColour := s }
    | _ => .error "AssertionError"
  else if k == "visualize_shape" then
    match v with
    | .pInt z => .ok { a with visualizeShape := z }
    | _ => .error "AssertionError"
  else if k == "visualize_depth" then
    match v with
    | .pInt z => .ok { a with visualizeDepth := z }
    | _ => .error "AssertionError"
  else if k == "team" then
    match v with
    | .pStr s => .ok { a with team := s }
    | _ => .error "AssertionError"
  else if k == "agent_speed_in_ticks" then
    match v with
    | .pInt z => .ok { a with agentSpeedInTicks := z }
    | _ => .error "AssertionError"
  else if k == "sense_capability" then
    match v with
    | .pSense l => .ok { a with senseCapability := l }
    | _ => .error "AssertionError"
  else if k == "is_human_agent" then
    match v with
    | .pBool b => .ok { a with isHumanAgent := b }
    | _ => .error "AssertionError"
  else if k == "action_set" then
    match v with
    | .pStrs l => .ok { a with actionSet := l }
    | _ => .error "AssertionError"
  else if k == "is_movable" then
    match v with
    | .pBool b => .ok { a with isMovable := b }
    | _ => .error "AssertionError"
  else
    .ok a

/-- The loop body of set_agent_changed_properties, folded over the returned
property pairs with the property snapshot taken once before the loop: a key
missing from the snapshot raises the removal error, an unchanged value is
skipped, a changed key outside the whitelist raises the non-writable error,
and an allowed change goes through change_property. -/
def setChangedPropsAux (snapshot : List (String × PVal)) :
    AgentAvatar → List (String × PVal) → Except String AgentAvatar
  | a, [] => .ok a
  | a, (k, v) :: rest =>
    if (snapshot.map Prod.fst).contains k = false then
      .error ("Agent tried to remove the property " ++ k ++ ", which is not allowed.")
    else if dictGetP snapshot k == some v then
      setChangedPropsAux snapshot a rest
    else if a.customizableProperties.contains k = false then
      .error ("Agent tried to change a non-writable property: " ++ k ++ ".")
    else
      match changeProperty a k v with
      | .error e => .error e
      | .ok a2 => setChangedPropsAux snapshot a2 rest

/-- AgentAvatar.set_agent_changed_properties (agent_avatar.py lines 146-170):
take the property snapshot, then process every returned pair in order. -/
def setAgentChangedProperties (a : AgentAvatar) (props : List (String × PVal)) :
    Except String AgentAvatar :=
  setChangedPropsAux (propertiesMap a) a props

/-- The remembered property snapshot of one perceived object
(state_tracker.py reads its "location" and "class_inheritance" entries). -/
structure ObjSnapshot where
  location : Loc
  classInheritance : List String
deriving DecidableEq, Repr

/-- The "internal_state" entry of an agent state as the tracker reads it:
the agent's sense capability mapping and its current location. -/
structure InternalState where
  senseCapability : List (String × Radius)
  location : Loc
deriving DecidableEq, Repr

/-- A freshly sensed agent state handed to StateTracker.update: a "world"
payload (copied verbatim, so kept as an unstructured string here), the
"internal_state" entry, and the "perceived_objects" dictionary.  These three
are exactly the top-level keys of such a state. -/
structure SensedState where
  world : String
  internalState : InternalState
  perceivedObjects : List (OId × ObjSnapshot)
deriving DecidableEq, Repr

/-- StateTracker state (state_tracker.py): the decay rate, and the memorized
state dictionary whose top-level keys after any update are "world",
"internal_state" and "perceived_objects", next to the per-object decay
counters.  Before the first update the memorized dictionary is empty, hence
the Option fields. -/
structure StateTracker where
  agentId : OId
  decayRate : ℚ
  memorizedWorld : Option String
  memorizedInternal : Option InternalState
  memorizedPerceived : List (OId × ObjSnapshot)
  decayValues : List (OId × ℚ)
deriving DecidableEq, Repr

/-- StateTracker.__init__ (state_tracker.py lines 8-24): a knowledge_decay
above 1.0 is inverted into a rate, a negative one becomes 0.0, anything in
between is used as the rate directly. -/
def stInit (agentId : OId) (knowledgeDecay : ℚ) : StateTracker :=
  let decay : ℚ :=
    if 1 < knowledgeDecay then 1 / knowledgeDecay
    else if knowledgeDecay < 0 then 0
    else knowledgeDecay
  ⟨agentId, decay, none, none, [], []⟩

/-- Dictionary assignment on a decay-counter map: update in place when the key
exists, else append. -/
def dictSetQ (m : List (OId × ℚ)) (k : OId) (v : ℚ) : List (OId × ℚ) :=
  if (m.map Prod.fst).contains k then
    m.map (fun p => if p.1 == k then (k, v) else p)
  else
    m ++ [(k, v)]

/-- The three top-level keys of a memorized state after an update, which are
also exactly the top-level keys of every fresh SensedState. -/
def trackerTopKeys : List String := ["world", "internal_state", "perceived_objects"]

/-- StateTracker.update (state_tracker.py lines 32-90), step by step:
1. every decay counter is decremented by the rate;
2. every entry whose counter fell below zero is removed - but the removal pops
   the object id from the TOP level of the memorized state, whose only keys
   are "world", "internal_state" and "perceived_objects", so the first expired
   entry raises KeyError;
3. the "world" and "internal_state" entries are overwritten from the fresh
   state;
4. the "perceived_objects" entry is REPLACED by a dictionary rebuilt from
   exactly the freshly perceived objects (previously remembered objects are
   not copied over), and each fresh id's decay counter is reset to 1.0;
5. the closing purge loop iterates over the top-level keys of the memorized
   state; every one of them is also a key of the fresh state, so each
   iteration hits the continue and the loop purges nothing. -/
def stUpdate (st : StateTracker) (s : SensedState) : Except String StateTracker :=
  let decays1 := st.decayValues.map (fun p => (p.1, p.2 - st.decayRate))
  if decays1.any (fun p => decide (p.2 < 0)) then
    .error "KeyError: expired object id is not a top-level key of the memorized state"
  else
    let memWorld := some s.world
    let memInternal := some s.internalState
    let decays2 := s.perceivedObjects.foldl (fun acc p => dictSetQ acc p.1 1) decays1
    let memPerceived := s.perceivedObjects
    if trackerTopKeys.all (fun k => trackerTopKeys.contains k) then
      .ok ⟨st.agentId, st.decayRate, memWorld, memInternal, memPerceived, decays2⟩
    else
      .error "unreachable: a memorized top-level entry has no object properties"

/-- The OpenDoorActionResult message constants (door_actions.py lines 140-152). -/
def doorNoObjectSpecified : String := "No object_id of a door specified to open."

/-- Message for a target that is missing or not a door. -/
def doorNotADoor : String := "Opendoor action could not be performed, as object is not a door"

/-- Message for a door outside the interaction range. -/
def doorNotInRange : String := "Door was not in range"

/-- Message for a door already in the requested state. -/
def doorAlreadyOpen : String := "Cannot open door, door is already open"

/-- Success message of the open-door mutation. -/
def doorOpenSuccess : String := "The door was succesfully opened."

/-- OpenDoorAction.__is_possible_with_kwargs (door_actions.py lines 104-137):
look up the acting agent (KeyError when missing), fail with
NO_OBJECT_SPECIFIED when object_id is None, with NOT_A_DOOR when the target is
not a registered environment object or its "type" property is not "Door";
the range check that follows reads the name objects_in_range, which is defined
nowhere in the module, so every call that reaches it raises NameError - the
NOT_IN_RANGE, DOOR_ALREADY_OPEN and success returns after it are unreachable.
(The DOOR_ALREADY_OPEN return is in addition inverted: it fires when
door_open is False.) -/
def openDoorIsPossibleWithKwargs (w : World) (agentId : OId)
    (objectId : Option OId) (_doorRange : Radius) :
    Except String (Bool × Option String) :=
  match findAgent w agentId with
  | none => .error "KeyError: agent_id not in registered_agents"
  | some _regAg =>
    match objectId with
    | none => .ok (false, some doorNoObjectSpecified)
    | some oid =>
      match findObject w oid with
      | none => .ok (false, some doorNotADoor)
      | some obj =>
        if (obj.objType == some "Door") = false then
          .ok (false, some doorNotADoor)
        else
          .error "NameError: name objects_in_range is not defined"

/-- OpenDoorAction.is_possible (door_actions.py lines 69-100): delegates to
__is_possible_with_kwargs without passing any kwargs, so object_id keeps its
None default and the feasibility test always reports NO_OBJECT_SPECIFIED. -/
def openDoorIsPossible (w : World) (agentId : OId) :
    Except String (Bool × Option String) :=
  openDoorIsPossibleWithKwargs w agentId none .infty

/-- OpenDoorAction.mutate (door_actions.py lines 27-64): object_id is read
from the kwargs (None default, reported as NO_OBJECT_SPECIFIED); otherwise the
target is fetched from environment_objects (KeyError when missing) and its
"door_open" property is set to True together with the "colour" appearance
property; the door_range kwarg is read but never used. -/
def openDoorMutate (w : World) (_agentId : OId) (objectId : Option OId) :
    Except String (World × (Bool × String)) :=
  match objectId with
  | none => .ok (w, (false, doorNoObjectSpecified))
  | some oid =>
    match findObject w oid with
    | none => .error "KeyError: object_id not in environment_objects"
    | some _obj =>
      let objs2 := w.environmentObjects.map (fun o =>
        if o.objId == oid then { o with doorOpen := true, colour := "#9c9c9c" } else o)
      .ok ({ w with environmentObjects := objs2 }, (true, doorOpenSuccess))

/-- The per-occupant rule of the specification, in the claim's wording: the
occupant fails the move with OCCUPIED when it is an intraversable avatar other
than the actor, with NO_MOVE when the avatar found there is the actor itself,
with NOT_PASSABLE_OBJECT when it is an intraversable environment object, and
lets the inspection continue otherwise. -/
def specOccupantVerdict (w : World) (actorId occId : OId) : Option MoveResult :=
  match findAgent w occId with
  | some la =>
    if occId != actorId && la.isTraversable == false then some .occupied
    else if occId == actorId then some .noMove
    else
      match findObject w occId with
      | some lo => if lo.isTraversable == false then some .notPassableObject else none
      | none => none
  | none =>
    match findObject w occId with
    | some lo => if lo.isTraversable == false then some .notPassableObject else none
    | none => none

/-- The move outcome of the specification: the verdict of the first occupant,
in insertion order, that triggers a rule - success when none does. -/
def specMoveOutcome (w : World) (actorId : OId) (occs : List OId) : MoveResult :=
  match occs.findSome? (specOccupantVerdict w actorId) with
  | some r => r
  | none => .success

/-- Concrete world for the contested-cell scenario: a 3 x 1 grid with avatar
"A" (registered first, intraversable) at (0,0) and avatar "B" (registered
second, intraversable) at (2,0); the cell (1,0) is empty. -/
def agentA1 : AgentModel :=
  ⟨"A", (0, 0), false, ["AgentAvatar"], ["MoveEast"], 0, 0, 0⟩

/-- Avatar "B" of the contested-cell scenario. -/
def agentB1 : AgentModel :=
  ⟨"B", (2, 0), false, ["AgentAvatar"], ["MoveWest"], 0, 0, 0⟩

/-- The contested-cell world. -/
def w1 : World := ⟨(3, 1), [], [agentA1, agentB1], 0⟩

/-- The decision policy of the contested-cell scenario: "A" moves east and "B"
moves west, both into (1,0). -/
def decide1 : OId → Option MoveAction :=
  fun i => if i == "A" then some .east else some .west

/-- Concrete world for the registration-rejection scenario: an intraversable
wall object occupies (0,0). -/
def wallObj2 : EnvObjModel := ⟨"wall", (0, 0), false, ["Wall", "EnvObject"], none, false, ""⟩

/-- The registration-rejection world. -/
def w2 : World := ⟨(3, 3), [wallObj2], [], 0⟩

/-- An intraversable agent whose placement collides with the wall at (0,0). -/
def agentClash2 : AgentModel :=
  ⟨"clash", (0, 0), false, ["AgentAvatar"], [], 0, 0, 0⟩

/-- An intraversable object whose placement collides with the wall at (0,0). -/
def objClash2 : EnvObjModel := ⟨"clash2", (0, 0), false, ["Wall", "EnvObject"], none, false, ""⟩

/-- Concrete world for the move-semantics witness, the 5 x 1 end-to-end grid of
the spec: avatar "M" at (1,0), an intraversable tree object at (2,0). -/
def treeObj3 : EnvObjModel := ⟨"tree", (2, 0), false, ["Tree", "EnvObject"], none, false, ""⟩

/-- The moving avatar of the move-semantics witness. -/
def agentM3 : AgentModel :=
  ⟨"M", (1, 0), false, ["AgentAvatar"], ["MoveEast", "MoveWest"], 0, 0, 0⟩

/-- The move-semantics witness world. -/
def w3 : World := ⟨(5, 1), [treeObj3], [agentM3], 0⟩

/-- Concrete world for the sensing-range counterexample: a single traversable
block at (1,0), Euclidean distance 1 from the origin (0,0). -/
def objE5 : EnvObjModel := ⟨"E", (1, 0), true, ["Block", "EnvObject"], none, false, ""⟩

/-- The sensing-range world. -/
def w5 : World := ⟨(5, 5), [objE5], [], 0⟩

/-- Concrete "internal_state" entry for the state-tracker scenario: the agent
sits at (0,0) and perceives everything within range 3. -/
def trackerInternal6 : InternalState := ⟨[("*", Radius.val 3)], (0, 0)⟩

/-- Remembered snapshot of entity "E", far outside the sensing range. -/
def snapE6 : ObjSnapshot := ⟨(10, 10), ["Block"]⟩

/-- First sensed state: "E" is perceived. -/
def sensed6a : SensedState := ⟨"w", trackerInternal6, [("E", snapE6)]⟩

/-- Later sensed states: "E" is no longer perceived (and stays out of range). -/
def sensed6b : SensedState := ⟨"w", trackerInternal6, []⟩

/-- The tracker under test, built with knowledge_decay = 2, hence rate 1/2 and
ceil(1 / rate) = 2 ticks of claimed retention. -/
def tracker6a : StateTracker := stInit "a1" 2

/-- Expected tracker right after "E" was perceived (decay counter 1.0). -/
def tracker6b : StateTracker :=
  ⟨"a1", 1/2, some "w", some trackerInternal6, [("E", snapE6)], [("E", 1)]⟩

/-- Expected tracker one update later: the rebuilt perceived-objects entry no
longer holds "E" although its decay counter is still 1/2. -/
def tracker6c : StateTracker :=
  ⟨"a1", 1/2, some "w", some trackerInternal6, [], [("E", 1/2)]⟩

/-- Expected tracker two updates later (decay counter 0, still not expired). -/
def tracker6d : StateTracker :=
  ⟨"a1", 1/2, some "w", some trackerInternal6, [], [("E", 0)]⟩

/-- The carried object of the carry-cascade scenario, lying at (0,0). -/
def carriedX7 : EnvObjModel := ⟨"X", (0, 0), true, ["Block", "EnvObject"], none, false, ""⟩

/-- An avatar carrying the object X and no custom properties. -/
def avatar7 : AgentAvatar :=
  ⟨"A7", "Agent", (0, 0), false, true, false, "team7", 1, ["AgentAvatar", "EnvObject"],
    ["MoveEast"], [], [carriedX7], [("*", .infty)], 1, 0, "#000000", 0, [], [], 0, 0⟩

/-- The avatar after the location assignment: only its own location changed. -/
def avatar7moved : AgentAvatar :=
  ⟨"A7", "Agent", (1, 0), false, true, false, "team7", 1, ["AgentAvatar", "EnvObject"],
    ["MoveEast"], [], [carriedX7], [("*", .infty)], 1, 0, "#000000", 0, [], [], 0, 0⟩

/-- Concrete world for the goal-conjunction scenario (its contents are
irrelevant to the goal check). -/
def w8 : World := ⟨(3, 3), [], [], 0⟩

/-- A goal list whose single checker reports the goal as reached on every
world. -/
def goals8 : SimulationGoal := .goalList [fun _ => true]

/-- An avatar with one whitelisted custom property "heat" = 1. -/
def avatar9 : AgentAvatar :=
  ⟨"A9", "Agent", (0, 0), false, true, false, "team9", 1, ["AgentAvatar", "EnvObject"],
    ["MoveEast"], [], [], [("*", .infty)], 1, 0, "#000000", 0,
    [("heat", .pInt 1)], ["heat"], 0, 0⟩

/-- The closed door of the door-toggle scenario, adjacent to the agent. -/
def doorD10 : EnvObjModel := ⟨"D", (0, 1), false, ["Door", "EnvObject"], some "Door", false, "#000000"⟩

/-- The door-toggle world: agent "a" at (0,0), the closed door at (0,1). -/
def w10 : World :=
  ⟨(3, 3), [doorD10], [⟨"a", (0, 0), false, ["AgentAvatar"], ["OpenDoorAction"], 0, 0, 1⟩], 0⟩

/-- The combined per-agent effect of a performed move on the registry: the
relocation of act_move followed by the busy update of set_agent_busy, both of
which only touch the agent with the acting id. -/
def moveBusyUpdate (aid : OId) (newLoc : Loc) (tick dur : Nat)
    (a : AgentModel) : AgentModel :=
  if a.objId == aid then
    { a with location := newLoc, lastActionTick := tick, lastActionDuration := dur }
  else a

/-- C4: check_agent_busy reports the avatar busy exactly while
curr_tick < started tick + max(duration_in_ticks, agent_speed_in_ticks); the
avatar is eligible again exactly at that boundary; and the decision phase of a
tick asks precisely the non-busy avatars for an action, in registration order
(busy ones only run their observe callback and add nothing to the buffer). -/
theorem busy_window_iff (a : AgentModel) (t : Nat) :
    (checkAgentBusy a t = true ↔
      t < a.lastActionTick + max a.lastActionDuration a.agentSpeedInTicks) ∧
    checkAgentBusy a (a.lastActionTick + max a.lastActionDuration a.agentSpeedInTicks)
      = false ∧
    ∀ (w : World) (decideFn : OId → Option MoveAction),
      (decisionPhase w decideFn).map Prod.fst =
        (w.registeredAgents.filter
          (fun x => checkAgentBusy x w.currentTick == false)).map AgentModel.objId := by
  refine ⟨?_, ?_, ?_⟩
  · constructor
    · intro h
      by_contra hc
      have h1 : a.lastActionTick + a.lastActionDuration ≤ t := by omega
      have h2 : a.lastActionTick + a.agentSpeedInTicks ≤ t := by omega
      simp [checkAgentBusy, h1, h2] at h
    · intro h
      have h1 : ¬(a.lastActionTick + a.lastActionDuration ≤ t) ∨
          ¬(a.lastActionTick + a.agentSpeedInTicks ≤ t) := by omega
      rcases h1 with h1 | h1 <;> simp [checkAgentBusy, h1]
  · have h1 : a.lastActionTick + a.lastActionDuration ≤
        a.lastActionTick + max a.lastActionDuration a.agentSpeedInTicks := by omega
    have h2 : a.lastActionTick + a.agentSpeedInTicks ≤
        a.lastActionTick + max a.lastActionDuration a.agentSpeedInTicks := by omega
    simp [checkAgentBusy, h1, h2]
  · intro w decideFn
    simp [decisionPhase, List.map_map, Function.comp]

/-- C8: with a list-valued simulation goal the per-tick goal evaluation never
reports the run as done, even when every goal checker in the list returns
True, because check_simulation_goal falls through to its final "return False"
after the loop; the step consequently does not transition to Done and runs the
tick.  A single non-list goal checker does report done. -/
theorem goal_list_never_done :
    checkSimulationGoal goals8 w8 = false ∧
    (stepWorld goals8 (fun _ => none) w8).2 = false ∧
    checkSimulationGoal (SimulationGoal.single (fun _ => true)) w8 = true := by
  exact ⟨rfl, rfl, rfl⟩

/-- C6: with decay rate 1/2 (so ceil(1/rate) = 2 claimed retention ticks), an
entity "E" perceived once and never again, remaining far outside sensing
range, is already absent from the memorized perceived objects after the very
next update - its decay counter still being 1/2 - because update rebuilds the
perceived-objects entry from exactly the fresh perception; two updates later
the decay purge raises KeyError because it pops the object id from the top
level of the memorized state. -/
theorem state_tracker_discards_memory :
    stUpdate tracker6a sensed6a = .ok tracker6b ∧
    stUpdate tracker6b sensed6b = .ok tracker6c ∧
    tracker6c.memorizedPerceived = [] ∧
    tracker6c.decayValues = [("E", 1/2)] ∧
    stUpdate tracker6c sensed6b = .ok tracker6d ∧
    stUpdate tracker6d sensed6b =
      .error "KeyError: expired object id is not a top-level key of the memorized state" := by
  refine ⟨rfl, ?_, rfl, rfl, ?_, ?_⟩
  · simp [stUpdate, tracker6b, tracker6c, sensed6b, dictSetQ, trackerTopKeys]
    norm_num
  · simp [stUpdate, tracker6c, tracker6d, sensed6b, dictSetQ, trackerTopKeys]
  · simp [stUpdate, tracker6d, sensed6b, dictSetQ, trackerTopKeys]

/-- C7: relocating an avatar that carries the object X leaves X at its old
location: the location setter looks for a property key "carrying", but the
properties getter exposes the carried objects under "is_carrying", so the
carry cascade is dead code for every avatar without a custom property
literally named "carrying". -/
theorem carry_cascade_dead :
    setAvatarLocation avatar7 (1, 0) = .ok avatar7moved ∧
    avatar7moved.privateLocation = (1, 0) ∧
    avatar7moved.isCarrying = [carriedX7] ∧
    carriedX7.location = (0, 0) ∧
    ((propertiesMap avatar7).map Prod.fst).contains "carrying" = false ∧
    ((propertiesMap avatar7).map Prod.fst).contains "is_carrying" = true := by
  exact ⟨rfl, rfl, rfl, rfl, rfl, rfl⟩

/-- C9: an avatar with whitelisted custom property "heat" = 1: a returned
property map changing "heat" to 2 raises TypeError (change_property assigns
into the whitelist list instead of the custom-property dictionary, so the new
value is never applied); a returned map that omits "heat" entirely - deleting
it - raises nothing and leaves the avatar unchanged; and a returned map adding
an unknown property is what actually triggers the "tried to remove" error. -/
theorem whitelist_changes_not_applied :
    setAgentChangedProperties avatar9
        (dictSetP (propertiesMap avatar9) "heat" (.pInt 2)) =
      .error "TypeError: list indices must be integers or slices, not str" ∧
    setAgentChangedProperties avatar9
        ((propertiesMap avatar9).filter (fun p => !(p.1 == "heat"))) = .ok avatar9 ∧
    setAgentChangedProperties avatar9
        (dictSetP (propertiesMap avatar9) "brand_new" (.pInt 3)) =
      .error "Agent tried to remove the property brand_new, which is not allowed." := by
  exact ⟨rfl, rfl, rfl⟩

/-- C10: the door-toggle feasibility test reports NO_OBJECT_SPECIFIED without a
target id and NOT_A_DOOR for a missing target, as claimed - but for an
existing closed door within range it raises NameError, because the range check
reads the undefined name objects_in_range; the NOT_IN_RANGE,
DOOR_ALREADY_OPEN (itself inverted: it fires when door_open is False) and
success returns behind it are unreachable, and the public is_possible passes
no kwargs, so it always reports NO_OBJECT_SPECIFIED. -/
theorem door_toggle_name_error :
    openDoorIsPossibleWithKwargs w10 "a" none (.val 1) =
      .ok (false, some doorNoObjectSpecified) ∧
    openDoorIsPossibleWithKwargs w10 "a" (some "x") (.val 1) =
      .ok (false, some doorNotADoor) ∧
    openDoorIsPossibleWithKwargs w10 "a" (some "D") (.val 1) =
      .error "NameError: name objects_in_range is not defined" ∧
    openDoorIsPossible w10 "a" = .ok (false, some doorNoObjectSpecified) := by
  exact ⟨rfl, rfl, rfl, rfl⟩

/-- C5 counterexample: the block "E" sits at Euclidean distance 1 from the
origin; the sensing query with radius 0 does not return it, while an unlimited
query does - a non-positive radius does not behave as unlimited range in
get_objects_in_range. -/
theorem nonpositive_radius_not_unlimited :
    getObjectsInRange w5 (0, 0) .wildcard (.val 0) = [] ∧
    getObjectsInRange w5 (0, 0) .wildcard .infty = [("E", .obj objE5)] := by
  constructor
  · simp [getObjectsInRange, w5, objE5, distLE, sqDist, typeMatches]
  · simp [getObjectsInRange, w5, objE5, distLE, sqDist, typeMatches]

/-- C5 (amended): the sensing query returns exactly the pairs (id, e) where e
is an entity of the world (object or avatar) whose type matches the filter and
whose Euclidean distance from the origin is <= the radius; a wildcard filter
matches every entity; and a named (non-wildcard) type with a non-positive
radius is stored as unlimited (np.inf) at SenseCapability construction - the
query itself takes a non-positive radius literally. -/
theorem objects_in_range_characterisation (w : World) (origin : Loc)
    (tf : TypeFilter) (r : Radius) (i : OId) (e : Entity) (t : String) (q : ℚ)
    (hq : q ≤ 0) :
    ((i, e) ∈ getObjectsInRange w origin tf r ↔
      e ∈ entitiesOf w ∧ i = e.objId ∧ typeMatches tf e = true ∧
        distLE e.location origin r = true) ∧
    typeMatches .wildcard e = true ∧
    senseCapability [(some t, .val q)] = [(t, .infty)] := by
  refine ⟨?_, ?_, ?_⟩
  · cases e with
    | obj o =>
      simp only [getObjectsInRange, entitiesOf, List.mem_append, List.mem_map,
        List.mem_filter, Entity.location, Entity.objId, Prod.mk.injEq,
        Bool.and_eq_true]
      aesop
    | agent a =>
      simp only [getObjectsInRange, entitiesOf, List.mem_append, List.mem_map,
        List.mem_filter, Entity.location, Entity.objId, Prod.mk.injEq,
        Bool.and_eq_true]
      aesop
  · cases e <;> rfl
  · have hnot : ¬(0 < q) := not_lt.mpr hq
    simp [senseCapability, senseCapabilityInit, dictSetRange, hnot]

/-- Witness for the amended sensing characterisation: the concrete world w5,
the wildcard filter with unlimited radius, the entity "E", and the named type
"Block" with radius 0. -/
theorem objects_in_range_characterisation_witness :
    (0 : ℚ) ≤ 0 ∧
    ((("E", Entity.obj objE5) ∈
        getObjectsInRange w5 (0, 0) TypeFilter.wildcard Radius.infty ↔
      Entity.obj objE5 ∈ entitiesOf w5 ∧ "E" = (Entity.obj objE5).objId ∧
        typeMatches TypeFilter.wildcard (Entity.obj objE5) = true ∧
        distLE (Entity.obj objE5).location (0, 0) Radius.infty = true) ∧
    typeMatches .wildcard (Entity.obj objE5) = true ∧
    senseCapability [(some "Block", .val 0)] = [("Block", .infty)]) :=
  ⟨le_refl 0,
    objects_in_range_characterisation w5 (0, 0) TypeFilter.wildcard Radius.infty
      "E" (Entity.obj objE5) "Block" 0 (le_refl 0)⟩

/-- The occupant-inspection loop of possible_movement computes exactly the
specification's first-triggering-rule outcome over the occupant list. -/
theorem inspectOccupants_eq_spec (w : World) (aid : OId) (l : List OId) :
    inspectOccupants w aid l = specMoveOutcome w aid l := by
  induction l with
  | nil => rfl
  | cons x rest ih =>
    have hstep : specMoveOutcome w aid (x :: rest) =
        match specOccupantVerdict w aid x with
        | some r => r
        | none => specMoveOutcome w aid rest := by
      rw [specMoveOutcome, List.findSome?_cons]
      cases specOccupantVerdict w aid x with
      | none => rfl
      | some r => rfl
    rw [hstep, inspectOccupants]
    cases hA : findAgent w x with
    | none =>
      cases hO : findObject w x with
      | none => simp [specOccupantVerdict, hA, hO, ih]
      | some lo =>
        by_cases ht : lo.isTraversable = true
        · simp [specOccupantVerdict, hA, hO, ht, ih]
        · simp only [Bool.not_eq_true] at ht
          simp [specOccupantVerdict, hA, hO, ht, ih]
    | some la =>
      by_cases hx : (x == aid) = true
      · simp [specOccupantVerdict, hA, hx, bne]
      · simp only [Bool.not_eq_true] at hx
        by_cases ht : la.isTraversable = true
        · cases hO : findObject w x with
          | none => simp [specOccupantVerdict, hA, hO, hx, ht, bne, ih]
          | some lo =>
            by_cases hto : lo.isTraversable = true
            · simp [specOccupantVerdict, hA, hO, hx, ht, hto, bne, ih]
            · simp only [Bool.not_eq_true] at hto
              simp [specOccupantVerdict, hA, hO, hx, ht, hto, bne, ih]
        · simp only [Bool.not_eq_true] at ht
          simp [specOccupantVerdict, hA, hx, ht, bne]

/-- A find? by id commutes with mapping an id-preserving update over the agent
list. -/
theorem find?_map_preserving (l : List AgentModel) (f : AgentModel → AgentModel)
    (hf : ∀ a, (f a).objId = a.objId) (j : OId) :
    (l.map f).find? (fun a => a.objId == j) =
      (l.find? (fun a => a.objId == j)).map f := by
  induction l with
  | nil => rfl
  | cons a rest ih =>
    by_cases h : (a.objId == j) = true
    · rw [List.map_cons, List.find?_cons_of_pos, List.find?_cons_of_pos]
      · rfl
      · exact h
      · rw [hf a]
        exact h
    · rw [List.map_cons, List.find?_cons_of_neg, List.find?_cons_of_neg, ih]
      · simpa using h
      · rw [hf a]
        simpa using h

/-- C3: for a built-in move by an existing, capable avatar: an out-of-bounds
target yields OUT_OF_BOUNDS and the world - every entity location - is
unchanged; an in-bounds target yields exactly the specification outcome of
inspecting the target cell's occupants in insertion order (OCCUPIED for an
intraversable other avatar, NO_MOVE for the actor itself, NOT_PASSABLE_OBJECT
for an intraversable object, success otherwise); any failed move leaves the
world unchanged; and a successful move relocates the actor to the target. -/
theorem move_semantics (w : World) (aid : OId) (m : MoveAction) (av : AgentModel)
    (hfind : findAgent w aid = some av)
    (hcap : av.actionSet.contains m.className = true) :
    (inBounds w (av.location.1 + m.dx, av.location.2 + m.dy) = false →
      possibleMovement w aid m.dx m.dy = some .outOfBounds ∧
      performAction w aid (some m) = (w, .moveRes .outOfBounds)) ∧
    (inBounds w (av.location.1 + m.dx, av.location.2 + m.dy) = true →
      possibleMovement w aid m.dx m.dy =
        some (specMoveOutcome w aid
          (occupantsAt w (av.location.1 + m.dx, av.location.2 + m.dy)))) ∧
    (∀ r : MoveResult, possibleMovement w aid m.dx m.dy = some r →
      r.succeeded = false → (performAction w aid (some m)).1 = w) ∧
    (possibleMovement w aid m.dx m.dy = some .success →
      (findAgent (performAction w aid (some m)).1 aid).map AgentModel.location =
        some (av.location.1 + m.dx, av.location.2 + m.dy)) := by
  have hfind2 : w.registeredAgents.find? (fun a => a.objId == aid) = some av := hfind
  have havid : (av.objId == aid) = true := by
    have h2 := List.find?_some hfind2
    simpa using h2
  have haveq : av.objId = aid := by simpa using havid
  have hmem : m.className ∈ av.actionSet := by simpa using hcap
  refine ⟨?_, ?_, ?_, ?_⟩
  · intro hnb
    constructor
    · simp [possibleMovement, hfind, hnb]
    · simp [performAction, hfind, hcap, hmem, possibleMovement, hnb, MoveResult.succeeded]
  · intro hb
    simp [possibleMovement, hfind, hb, inspectOccupants_eq_spec]
  · intro r hr hs
    simp [performAction, hfind, hcap, hmem, hr, hs]
  · intro hsucc
    have hact : actMove w aid m.dx m.dy =
        (updateAgentLocation w aid (av.location.1 + m.dx, av.location.2 + m.dy),
          .success) := by
      simp [actMove, hfind]
    have hup : (performAction w aid (some m)).1 =
        setAgentBusy
          (updateAgentLocation w aid (av.location.1 + m.dx, av.location.2 + m.dy))
          aid w.currentTick m.durationInTicks := by
      simp [performAction, hfind, hcap, hmem, hsucc, MoveResult.succeeded, hact]
    rw [hup]
    have hfLoc : ∀ a : AgentModel,
        ((fun a => if a.objId == aid
            then { a with location := (av.location.1 + m.dx, av.location.2 + m.dy) }
            else a) a).objId = a.objId := by
      intro a
      by_cases h : (a.objId == aid) = true <;> simp [h]
    have hfBusy : ∀ a : AgentModel,
        ((fun a => if a.objId == aid
            then { a with lastActionTick := w.currentTick,
                          lastActionDuration := m.durationInTicks }
            else a) a).objId = a.objId := by
      intro a
      by_cases h : (a.objId == aid) = true <;> simp [h]
    simp only [setAgentBusy, updateAgentLocation, findAgent]
    rw [find?_map_preserving _ _ hfBusy aid, find?_map_preserving _ _ hfLoc aid]
    rw [hfind2]
    simp [haveq]

/-- Witness for the move semantics at the spec's 5 x 1 scenario world: avatar
"M" at (1,0) moving east toward the intraversable tree at (2,0). -/
theorem move_semantics_witness :
    (findAgent w3 "M" = some agentM3 ∧
      agentM3.actionSet.contains MoveAction.east.className = true) ∧
    ((inBounds w3 (agentM3.location.1 + MoveAction.east.dx,
        agentM3.location.2 + MoveAction.east.dy) = false →
      possibleMovement w3 "M" MoveAction.east.dx MoveAction.east.dy =
        some .outOfBounds ∧
      performAction w3 "M" (some MoveAction.east) =
        (w3, .moveRes .outOfBounds)) ∧
    (inBounds w3 (agentM3.location.1 + MoveAction.east.dx,
        agentM3.location.2 + MoveAction.east.dy) = true →
      possibleMovement w3 "M" MoveAction.east.dx MoveAction.east.dy =
        some (specMoveOutcome w3 "M"
          (occupantsAt w3 (agentM3.location.1 + MoveAction.east.dx,
            agentM3.location.2 + MoveAction.east.dy)))) ∧
    (∀ r : MoveResult,
      possibleMovement w3 "M" MoveAction.east.dx MoveAction.east.dy = some r →
      r.succeeded = false →
      (performAction w3 "M" (some MoveAction.east)).1 = w3) ∧
    (possibleMovement w3 "M" MoveAction.east.dx MoveAction.east.dy =
        some .success →
      (findAgent (performAction w3 "M" (some MoveAction.east)).1 "M").map
          AgentModel.location =
        some (agentM3.location.1 + MoveAction.east.dx,
          agentM3.location.2 + MoveAction.east.dy))) :=
  ⟨⟨rfl, rfl⟩, move_semantics w3 "M" MoveAction.east agentM3 rfl rfl⟩

/-- The application phase reports one result per buffered entry, in buffer
order (which is registration order). -/
theorem applyBuffer_order (w : World) (buf : List (OId × Option MoveAction)) :
    (applyBuffer w buf).2.map Prod.fst = buf.map Prod.fst := by
  induction buf generalizing w with
  | nil => rfl
  | cons p rest ih =>
    cases p with
    | mk aid act => simp [applyBuffer, ih]

/-- C1: within one tick every decision is buffered before any action applies
(the buffer is computed from the pre-tick world), the buffered actions apply
in registration order, and in the contested-cell scenario - avatars A and B,
registered in that order, both requesting a move into the same empty in-bounds
cell c - A ends up occupying c while B's move fails with OCCUPIED because A
(now at c) is intraversable; B stays where it was. -/
theorem registration_order_priority
    (w : World) (A B : AgentModel) (mA mB : MoveAction) (c : Loc)
    (decideFn : OId → Option MoveAction)
    (hagents : w.registeredAgents = [A, B])
    (hneq : A.objId ≠ B.objId)
    (hAnb : checkAgentBusy A w.currentTick = false)
    (hBnb : checkAgentBusy B w.currentTick = false)
    (hdA : decideFn A.objId = some mA)
    (hdB : decideFn B.objId = some mB)
    (hAcap : A.actionSet.contains mA.className = true)
    (hBcap : B.actionSet.contains mB.className = true)
    (htA : (A.location.1 + mA.dx, A.location.2 + mA.dy) = c)
    (htB : (B.location.1 + mB.dx, B.location.2 + mB.dy) = c)
    (hbounds : inBounds w c = true)
    (hempty : occupantsAt w c = [])
    (hAintrav : A.isTraversable = false) :
    decisionPhase w decideFn = [(A.objId, some mA), (B.objId, some mB)] ∧
    (tickActions w decideFn).2 =
      [(A.objId, .moveRes .success), (B.objId, .moveRes .occupied)] ∧
    (findAgent (tickActions w decideFn).1 A.objId).map AgentModel.location =
      some c ∧
    (findAgent (tickActions w decideFn).1 B.objId).map AgentModel.location =
      some B.location ∧
    (∀ (w2 : World) (buf : List (OId × Option MoveAction)),
      (applyBuffer w2 buf).2.map Prod.fst = buf.map Prod.fst) := by
  have hAA : (A.objId == A.objId) = true := beq_self_eq_true A.objId
  have hBB : (B.objId == B.objId) = true := beq_self_eq_true B.objId
  have hAB : (A.objId == B.objId) = false := beq_eq_false_iff_ne.mpr hneq
  have hBA : (B.objId == A.objId) = false := beq_eq_false_iff_ne.mpr (Ne.symm hneq)
  have hBAne : B.objId ≠ A.objId := Ne.symm hneq
  have hemp := hempty
  rw [occupantsAt, hagents, List.append_eq_nil] at hemp
  obtain ⟨hobjs, hags⟩ := hemp
  have hobjfilter : w.environmentObjects.filter (fun o => o.location == c) = [] :=
    List.map_eq_nil_iff.mp hobjs
  have hagfilter : [A, B].filter (fun a => a.location == c) = [] :=
    List.map_eq_nil_iff.mp hags
  have hAc : (A.location == c) = false := by
    have h1 := List.filter_eq_nil_iff.mp hagfilter A (by simp)
    simpa using h1
  have hBc : (B.location == c) = false := by
    have h1 := List.filter_eq_nil_iff.mp hagfilter B (by simp)
    simpa using h1
  have hdec : decisionPhase w decideFn = [(A.objId, some mA), (B.objId, some mB)] := by
    simp [decisionPhase, hagents, hAnb, hBnb, hdA, hdB]
  have hfindA : findAgent w A.objId = some A := by
    simp [findAgent, hagents, hAA]
  have hmemA : mA.className ∈ A.actionSet := by simpa using hAcap
  have hmemB : mB.className ∈ B.actionSet := by simpa using hBcap
  have hmovA : possibleMovement w A.objId mA.dx mA.dy = some .success := by
    rw [possibleMovement, hfindA]
    simp only [htA, hbounds, if_true, hempty]
    rfl
  have hperfA : performAction w A.objId (some mA) =
      (⟨w.shape, w.environmentObjects,
        [⟨A.objId, c, A.isTraversable, A.classInheritance, A.actionSet,
          w.currentTick, 1, A.agentSpeedInTicks⟩, B], w.currentTick⟩,
        .moveRes .success) := by
    simp [performAction, hfindA, hmemA, hmovA, MoveResult.succeeded, actMove, htA,
      updateAgentLocation, setAgentBusy, hagents, hAA, hBA, hBAne,
      MoveAction.durationInTicks]
  have hfindB2 : findAgent
      (⟨w.shape, w.environmentObjects,
        [⟨A.objId, c, A.isTraversable, A.classInheritance, A.actionSet,
          w.currentTick, 1, A.agentSpeedInTicks⟩, B], w.currentTick⟩ : World)
      B.objId = some B := by
    simp [findAgent, hAB, hBB]
  have hfindA2 : findAgent
      (⟨w.shape, w.environmentObjects,
        [⟨A.objId, c, A.isTraversable, A.classInheritance, A.actionSet,
          w.currentTick, 1, A.agentSpeedInTicks⟩, B], w.currentTick⟩ : World)
      A.objId = some ⟨A.objId, c, A.isTraversable, A.classInheritance, A.actionSet,
        w.currentTick, 1, A.agentSpeedInTicks⟩ := by
    simp [findAgent, hAA]
  have hoccB : occupantsAt
      (⟨w.shape, w.environmentObjects,
        [⟨A.objId, c, A.isTraversable, A.classInheritance, A.actionSet,
          w.currentTick, 1, A.agentSpeedInTicks⟩, B], w.currentTick⟩ : World) c
      = [A.objId] := by
    simp [occupantsAt, hobjfilter, hBc]
  have hmovB : possibleMovement
      (⟨w.shape, w.environmentObjects,
        [⟨A.objId, c, A.isTraversable, A.classInheritance, A.actionSet,
          w.currentTick, 1, A.agentSpeedInTicks⟩, B], w.currentTick⟩ : World)
      B.objId mB.dx mB.dy = some .occupied := by
    rw [possibleMovement, hfindB2]
    have hbounds2 : inBounds
        (⟨w.shape, w.environmentObjects,
          [⟨A.objId, c, A.isTraversable, A.classInheritance, A.actionSet,
            w.currentTick, 1, A.agentSpeedInTicks⟩, B], w.currentTick⟩ : World) c
        = true := hbounds
    simp only [htB, hbounds2, if_true, hoccB]
    rw [inspectOccupants, hfindA2]
    simp [hAB, hAintrav]
  have hperfB : performAction
      (⟨w.shape, w.environmentObjects,
        [⟨A.objId, c, A.isTraversable, A.classInheritance, A.actionSet,
          w.currentTick, 1, A.agentSpeedInTicks⟩, B], w.currentTick⟩ : World)
      B.objId (some mB) =
      (⟨w.shape, w.environmentObjects,
        [⟨A.objId, c, A.isTraversable, A.classInheritance, A.actionSet,
          w.currentTick, 1, A.agentSpeedInTicks⟩, B], w.currentTick⟩,
        .moveRes .occupied) := by
    simp [performAction, hfindB2, hmemB, hmovB, MoveResult.succeeded]
  have happly : tickActions w decideFn =
      (⟨w.shape, w.environmentObjects,
        [⟨A.objId, c, A.isTraversable, A.classInheritance, A.actionSet,
          w.currentTick, 1, A.agentSpeedInTicks⟩, B], w.currentTick⟩,
        [(A.objId, .moveRes .success), (B.objId, .moveRes .occupied)]) := by
    rw [tickActions, hdec]
    rw [applyBuffer, hperfA]
    simp only
    rw [applyBuffer, hperfB]
    rfl
  refine ⟨hdec, ?_, ?_, ?_, fun w2 buf => applyBuffer_order w2 buf⟩
  · rw [happly]
  · rw [happly]
    simp [hfindA2]
  · rw [happly]
    simp [hfindB2]

/-- Witness for the contested-cell scenario on the concrete 3 x 1 world w1:
"A" at (0,0) moving east and "B" at (2,0) moving west, both into the empty
cell (1,0). -/
theorem registration_order_priority_witness :
    (w1.registeredAgents = [agentA1, agentB1] ∧
      agentA1.objId ≠ agentB1.objId ∧
      checkAgentBusy agentA1 w1.currentTick = false ∧
      checkAgentBusy agentB1 w1.currentTick = false ∧
      decide1 agentA1.objId = some MoveAction.east ∧
      decide1 agentB1.objId = some MoveAction.west ∧
      agentA1.actionSet.contains MoveAction.east.className = true ∧
      agentB1.actionSet.contains MoveAction.west.className = true ∧
      (agentA1.location.1 + MoveAction.east.dx,
        agentA1.location.2 + MoveAction.east.dy) = ((1, 0) : Loc) ∧
      (agentB1.location.1 + MoveAction.west.dx,
        agentB1.location.2 + MoveAction.west.dy) = ((1, 0) : Loc) ∧
      inBounds w1 (1, 0) = true ∧
      occupantsAt w1 (1, 0) = [] ∧
      agentA1.isTraversable = false) ∧
    (decisionPhase w1 decide1 =
        [(agentA1.objId, some MoveAction.east), (agentB1.objId, some MoveAction.west)] ∧
      (tickActions w1 decide1).2 =
        [(agentA1.objId, .moveRes .success), (agentB1.objId, .moveRes .occupied)] ∧
      (findAgent (tickActions w1 decide1).1 agentA1.objId).map AgentModel.location =
        some ((1, 0) : Loc) ∧
      (findAgent (tickActions w1 decide1).1 agentB1.objId).map AgentModel.location =
        some agentB1.location ∧
      (∀ (w2 : World) (buf : List (OId × Option MoveAction)),
        (applyBuffer w2 buf).2.map Prod.fst = buf.map Prod.fst)) :=
  ⟨⟨rfl, by decide, rfl, rfl, rfl, rfl, rfl, rfl, by decide, by decide, by decide,
      by decide, rfl⟩,
    registration_order_priority w1 agentA1 agentB1 MoveAction.east MoveAction.west
      (1, 0) decide1 rfl (by decide) rfl rfl rfl rfl rfl rfl (by decide) (by decide)
      (by decide) (by decide) rfl⟩

/-- The squared distance is non-negative. -/
theorem sqDist_nonneg (x c : Loc) : 0 ≤ sqDist x c := by
  unfold sqDist
  positivity

/-- Squared distance zero characterises equal locations. -/
theorem sqDist_eq_zero (x c : Loc) : sqDist x c = 0 ↔ x = c := by
  unfold sqDist
  constructor
  · intro h
    have ha : (x.1 - c.1) ^ 2 = 0 := by
      nlinarith [sq_nonneg (x.1 - c.1), sq_nonneg (x.2 - c.2)]
    have hb : (x.2 - c.2) ^ 2 = 0 := by
      nlinarith [sq_nonneg (x.1 - c.1), sq_nonneg (x.2 - c.2)]
    have ha2 : x.1 - c.1 = 0 := sq_eq_zero_iff.mp ha
    have hb2 : x.2 - c.2 = 0 := sq_eq_zero_iff.mp hb
    have hx1 : x.1 = c.1 := by omega
    have hx2 : x.2 = c.2 := by omega
    exact Prod.ext hx1 hx2
  · rintro rfl
    ring

/-- Range test with radius 0 (as validate_obj_placement uses it) holds exactly
on the same cell. -/
theorem distLE_zero (x c : Loc) : distLE x c (.val 0) = (x == c) := by
  rw [distLE]
  by_cases h : x = c
  · subst h
    have h0 : sqDist x x = 0 := (sqDist_eq_zero x x).mpr rfl
    simp [h0]
  · have hpos : 0 < sqDist x c :=
      lt_of_le_of_ne (sqDist_nonneg x c)
        (fun he => h ((sqDist_eq_zero x c).mp he.symm))
    have hq : ¬(((sqDist x c : ℤ) : ℚ) ≤ 0 * 0) := by
      rw [mul_zero]
      exact not_le.mpr (by exact_mod_cast hpos)
    have hbeq : (x == c) = false := beq_eq_false_iff_ne.mpr h
    simp [hq, hbeq]
    exact hpos

/-- The intraversable entities that validate_obj_placement collects at a cell
are exactly the cell's intraversable occupants. -/
theorem validate_count (w : World) (c : Loc) :
    ((getObjectsInRange w c .wildcard (.val 0)).filter
      (fun p => p.2.isTraversable == false)).length = intraversableCount w c := by
  rw [getObjectsInRange, intraversableCount, List.filter_append, List.length_append]
  rw [List.filter_map, List.filter_map, List.length_map, List.length_map]
  rw [List.filter_filter, List.filter_filter]
  rw [List.countP_eq_length_filter, List.countP_eq_length_filter]
  congr 1 <;>
    · apply congrArg List.length
      apply List.filter_congr
      intro a _
      simp [Function.comp, typeMatches, distLE_zero, Entity.isTraversable,
        Bool.and_comm]

/-- In a list with no duplicate keys, find? by a member's key returns that
member. -/
theorem find?_eq_of_mem_nodup {α : Type} (f : α → String) (l : List α)
    (hnd : (l.map f).Nodup) (x : α) (hx : x ∈ l) :
    l.find? (fun a => f a == f x) = some x := by
  induction l with
  | nil => cases hx
  | cons a rest ih =>
    rw [List.map_cons, List.nodup_cons] at hnd
    rcases List.mem_cons.mp hx with rfl | hx2
    · rw [List.find?_cons_of_pos]
      exact beq_self_eq_true (f x)
    · have hne : f a ≠ f x := by
        intro h
        exact hnd.1 (h ▸ List.mem_map_of_mem f hx2)
      rw [List.find?_cons_of_neg, ih hnd.2 hx2]
      simpa using hne

/-- If the occupant inspection reports success, then every inspected occupant
id resolves neither to the actor, nor to an intraversable agent, nor to an
intraversable object. -/
theorem inspect_success (w : World) (aid : OId) (l : List OId)
    (h : inspectOccupants w aid l = .success) :
    ∀ i ∈ l,
      (∀ y, findAgent w i = some y → i ≠ aid ∧ y.isTraversable = true) ∧
      (∀ z, findObject w i = some z → z.isTraversable = true) := by
  induction l with
  | nil =>
    intro i hi
    cases hi
  | cons x rest ih =>
    rw [inspectOccupants] at h
    cases hA : findAgent w x with
    | some la =>
      by_cases hx : (x == aid) = true
      · rw [hA] at h
        simp [hx] at h
      · by_cases ht : la.isTraversable = true
        · rw [hA] at h
          simp only [hx, Bool.false_eq_true, if_false, ht] at h
          cases hO : findObject w x with
          | some lo =>
            by_cases hto : lo.isTraversable = true
            · rw [hO] at h
              simp only [hto] at h
              intro i hi
              rcases List.mem_cons.mp hi with rfl | hi2
              · refine ⟨fun y hy => ?_, fun z hz => ?_⟩
                · rw [hA] at hy
                  cases hy
                  exact ⟨by simpa using hx, ht⟩
                · rw [hO] at hz
                  cases hz
                  exact hto
              · exact ih h i hi2
            · rw [hO] at h
              rw [Bool.not_eq_true] at hto
              simp [hto] at h
          | none =>
            rw [hO] at h
            simp only [] at h
            intro i hi
            rcases List.mem_cons.mp hi with rfl | hi2
            · refine ⟨fun y hy => ?_, fun z hz => ?_⟩
              · rw [hA] at hy
                cases hy
                exact ⟨by simpa using hx, ht⟩
              · rw [hO] at hz
                cases hz
            · exact ih h i hi2
        · rw [hA] at h
          rw [Bool.not_eq_true] at ht
          simp [hx, ht] at h
    | none =>
      rw [hA] at h
      simp only [] at h
      cases hO : findObject w x with
      | some lo =>
        by_cases hto : lo.isTraversable = true
        · rw [hO] at h
          simp only [hto] at h
          intro i hi
          rcases List.mem_cons.mp hi with rfl | hi2
          · refine ⟨fun y hy => ?_, fun z hz => ?_⟩
            · rw [hA] at hy
              cases hy
            · rw [hO] at hz
              cases hz
              exact hto
          · exact ih h i hi2
        · rw [hO] at h
          rw [Bool.not_eq_true] at hto
          simp [hto] at h
      | none =>
        rw [hO] at h
        simp only [] at h
        intro i hi
        rcases List.mem_cons.mp hi with rfl | hi2
        · refine ⟨fun y hy => ?_, fun z hz => ?_⟩
          · rw [hA] at hy
            cases hy
          · rw [hO] at hz
            cases hz
        · exact ih h i hi2

/-- Counting helper: the whitelist count of agents with a given id is at most
one in a duplicate-free registry. -/
theorem countP_id_le_one (l : List AgentModel) (aid : OId)
    (hndag : (l.map AgentModel.objId).Nodup) :
    l.countP (fun a => a.objId == aid) ≤ 1 := by
  have h1 : l.countP (fun a => a.objId == aid) =
      (l.map AgentModel.objId).countP (fun x => x == aid) := by
    rw [List.countP_map]
    rfl
  rw [h1]
  exact List.nodup_iff_count_le_one.mp hndag aid

/-- Relocation followed by the busy update is one pointwise registry map. -/
theorem setBusy_update_eq (w : World) (aid : OId) (newLoc : Loc) (tick dur : Nat) :
    setAgentBusy (updateAgentLocation w aid newLoc) aid tick dur =
      { w with registeredAgents :=
          w.registeredAgents.map (moveBusyUpdate aid newLoc tick dur) } := by
  rw [setAgentBusy, updateAgentLocation]
  simp only [List.map_map]
  congr 1
  apply List.map_congr_left
  intro a _
  by_cases hid : (a.objId == aid) = true
  · simp [moveBusyUpdate, Function.comp, hid]
  · rw [Bool.not_eq_true] at hid
    simp [moveBusyUpdate, Function.comp, hid]

/-- A successful move's relocation plus busy update keeps every cell at no
more than one intraversable occupant. -/
theorem moveUpdate_inv (w : World) (aid : OId) (newLoc : Loc) (tick dur : Nat)
    (hnd : (worldIds w).Nodup)
    (hinsp : inspectOccupants w aid (occupantsAt w newLoc) = .success)
    (hinv : OccupancyInv w) :
    OccupancyInv (setAgentBusy (updateAgentLocation w aid newLoc) aid tick dur) := by
  have hndobj : (w.environmentObjects.map EnvObjModel.objId).Nodup :=
    (List.nodup_append.mp hnd).1
  have hndag : (w.registeredAgents.map AgentModel.objId).Nodup :=
    (List.nodup_append.mp hnd).2.1
  have hfacts := inspect_success w aid (occupantsAt w newLoc) hinsp
  rw [setBusy_update_eq]
  intro c
  rw [intraversableCount]
  simp only [List.countP_map]
  by_cases hc : c = newLoc
  · subst hc
    have hobjzero : w.environmentObjects.countP
        (fun o => o.location == c && o.isTraversable == false) = 0 := by
      rw [List.countP_eq_zero]
      intro o ho hPo
      rw [Bool.and_eq_true] at hPo
      have hmem : o.objId ∈ occupantsAt w c := by
        rw [occupantsAt]
        exact List.mem_append_left _
          (List.mem_map_of_mem _ (List.mem_filter.mpr ⟨ho, hPo.1⟩))
      have hfindo : findObject w o.objId = some o :=
        find?_eq_of_mem_nodup EnvObjModel.objId w.environmentObjects hndobj o ho
      have htrue := (hfacts o.objId hmem).2 o hfindo
      have hfalse := hPo.2
      rw [htrue] at hfalse
      simp at hfalse
    have hagle : w.registeredAgents.countP
        ((fun a : AgentModel => a.location == c && a.isTraversable == false) ∘
          moveBusyUpdate aid c tick dur) ≤
        w.registeredAgents.countP (fun a => a.objId == aid) := by
      apply List.countP_mono_left
      intro a ha hPa
      by_cases hid : (a.objId == aid) = true
      · exact hid
      · exfalso
        rw [Bool.not_eq_true] at hid
        simp only [Function.comp, moveBusyUpdate, hid, Bool.false_eq_true,
          if_false, Bool.and_eq_true] at hPa
        have hmem : a.objId ∈ occupantsAt w c := by
          rw [occupantsAt]
          exact List.mem_append_right _
            (List.mem_map_of_mem _ (List.mem_filter.mpr ⟨ha, hPa.1⟩))
        have hfinda : findAgent w a.objId = some a :=
          find?_eq_of_mem_nodup AgentModel.objId w.registeredAgents hndag a ha
        have htrue := ((hfacts a.objId hmem).1 a hfinda).2
        have hfalse := hPa.2
        rw [htrue] at hfalse
        simp at hfalse
    rw [hobjzero, Nat.zero_add]
    exact le_trans hagle (countP_id_le_one w.registeredAgents aid hndag)
  · have hagle : w.registeredAgents.countP
        ((fun a : AgentModel => a.location == c && a.isTraversable == false) ∘
          moveBusyUpdate aid newLoc tick dur) ≤
        w.registeredAgents.countP
          (fun a => a.location == c && a.isTraversable == false) := by
      apply List.countP_mono_left
      intro a ha hPa
      by_cases hid : (a.objId == aid) = true
      · exfalso
        simp only [Function.comp, moveBusyUpdate, hid, if_true,
          Bool.and_eq_true] at hPa
        have : newLoc = c := by simpa using hPa.1
        exact hc this.symm
      · rw [Bool.not_eq_true] at hid
        simpa only [Function.comp, moveBusyUpdate, hid, Bool.false_eq_true,
          if_false] using hPa
    exact le_trans (Nat.add_le_add_left hagle _) (hinv c)

/-- Performed actions never change the id lists of the world. -/
theorem performAction_ids (w : World) (aid : OId) (act : Option MoveAction) :
    worldIds (performAction w aid act).1 = worldIds w := by
  cases hfind : findAgent w aid with
  | none => simp [performAction, hfind]
  | some av =>
    cases act with
    | none => simp [performAction, hfind]
    | some m =>
      by_cases hset : av.actionSet.contains m.className = true
      · have hmem : m.className ∈ av.actionSet := by simpa using hset
        cases hm : possibleMovement w aid m.dx m.dy with
        | none => simp [performAction, hfind, hmem, hm]
        | some r =>
          by_cases hs : r.succeeded = true
          · have hfinal : (performAction w aid (some m)).1 =
                setAgentBusy
                  (updateAgentLocation w aid (av.location.1 + m.dx, av.location.2 + m.dy))
                  aid w.currentTick m.durationInTicks := by
              simp [performAction, hfind, hmem, hm, hs, actMove]
            rw [hfinal, setBusy_update_eq]
            rw [worldIds, worldIds]
            congr 1
            simp only [List.map_map]
            apply List.map_congr_left
            intro a _
            by_cases hid : (a.objId == aid) = true
            · simp [moveBusyUpdate, Function.comp, hid]
            · rw [Bool.not_eq_true] at hid
              simp [moveBusyUpdate, Function.comp, hid]
          · rw [Bool.not_eq_true] at hs
            simp [performAction, hfind, hmem, hm, hs]
      · rw [Bool.not_eq_true] at hset
        have hnotmem : m.className ∉ av.actionSet := by simpa using hset
        simp [performAction, hfind, hnotmem]

/-- One performed action preserves the occupancy invariant. -/
theorem performAction_inv (w : World) (aid : OId) (act : Option MoveAction)
    (hnd : (worldIds w).Nodup) (hinv : OccupancyInv w) :
    OccupancyInv (performAction w aid act).1 := by
  cases hfind : findAgent w aid with
  | none => simpa only [performAction, hfind] using hinv
  | some av =>
    cases act with
    | none => simpa only [performAction, hfind] using hinv
    | some m =>
      by_cases hset : av.actionSet.contains m.className = true
      · have hmem : m.className ∈ av.actionSet := by simpa using hset
        cases hm : possibleMovement w aid m.dx m.dy with
        | none =>
          have : (performAction w aid (some m)).1 = w := by
            simp [performAction, hfind, hmem, hm]
          rw [this]
          exact hinv
        | some r =>
          by_cases hs : r.succeeded = true
          · have hr : r = .success := by
              cases r
              case success => rfl
              all_goals simp [MoveResult.succeeded] at hs
            subst hr
            have hx := hm
            simp only [possibleMovement, hfind] at hx
            by_cases hb : inBounds w (av.location.1 + m.dx, av.location.2 + m.dy) = true
            · rw [if_pos hb] at hx
              have hinsp : inspectOccupants w aid
                  (occupantsAt w (av.location.1 + m.dx, av.location.2 + m.dy)) =
                  .success := Option.some.inj hx
              have hfinal : (performAction w aid (some m)).1 =
                  setAgentBusy
                    (updateAgentLocation w aid
                      (av.location.1 + m.dx, av.location.2 + m.dy))
                    aid w.currentTick m.durationInTicks := by
                simp [performAction, hfind, hmem, hm, actMove, MoveResult.succeeded]
              rw [hfinal]
              exact moveUpdate_inv w aid (av.location.1 + m.dx, av.location.2 + m.dy)
                w.currentTick m.durationInTicks hnd hinsp hinv
            · rw [if_neg hb] at hx
              cases Option.some.inj hx
          · rw [Bool.not_eq_true] at hs
            have : (performAction w aid (some m)).1 = w := by
              simp [performAction, hfind, hmem, hm, hs]
            rw [this]
            exact hinv
      · rw [Bool.not_eq_true] at hset
        have hnotmem : m.className ∉ av.actionSet := by simpa using hset
        have : (performAction w aid (some m)).1 = w := by
          simp [performAction, hfind, hnotmem]
        rw [this]
        exact hinv

/-- Applying a whole action buffer preserves the occupancy invariant. -/
theorem applyBuffer_inv (buf : List (OId × Option MoveAction)) (w : World)
    (hnd : (worldIds w).Nodup) (hinv : OccupancyInv w) :
    OccupancyInv (applyBuffer w buf).1 := by
  induction buf generalizing w with
  | nil => exact hinv
  | cons p rest ih =>
    cases p with
    | mk aid act =>
      simp only [applyBuffer]
      exact ih (performAction w aid act).1
        (by rw [performAction_ids]; exact hnd)
        (performAction_inv w aid act hnd hinv)

/-- validate_obj_placement rejects an intraversable newcomer whose cell already
has an intraversable occupant. -/
theorem validate_reject (w : World) (e : Entity)
    (hintrav : e.isTraversable = false)
    (hcount : 0 < intraversableCount w e.location) :
    validateObjPlacement w e =
      .error "Invalid placement: location already occupied by intraversable object" := by
  rw [validateObjPlacement]
  have h1 : (e.isTraversable == false) = true := by
    rw [hintrav]
    rfl
  have h3 : decide (0 < (((getObjectsInRange w e.location .wildcard
      (.val 0)).filter (fun p => p.2.isTraversable == false)).map
        (fun p => p.2.objId)).length) = true := by
    apply decide_eq_true
    rw [List.length_map, validate_count]
    exact hcount
  rw [h1, h3]
  rfl

/-- When validate_obj_placement lets an intraversable newcomer through, its
cell had no intraversable occupant. -/
theorem validate_pass_count (w : World) (e : Entity)
    (hintrav : e.isTraversable = false) (u : Unit)
    (hval : validateObjPlacement w e = .ok u) :
    intraversableCount w e.location = 0 := by
  by_contra hne
  have hpos : 0 < intraversableCount w e.location := Nat.pos_of_ne_zero hne
  rw [validate_reject w e hintrav hpos] at hval
  cases hval

/-- C2: in a well-formed world (unique ids, at most one intraversable occupant
per cell) registering an intraversable agent or object onto a cell that
already holds an intraversable occupant is rejected with a raised error; any
registration that succeeds preserves the occupancy invariant, and so does a
whole scheduler step (decision phase plus ordered action application), hence
the invariant holds at every tick boundary. -/
theorem occupancy_invariant (w : World) (a : AgentModel) (o : EnvObjModel)
    (goal : SimulationGoal) (decideFn : OId → Option MoveAction)
    (hnd : (worldIds w).Nodup) (hinv : OccupancyInv w) :
    (a.isTraversable = false → 0 < intraversableCount w a.location →
      ∃ msg, registerAgent w a = .error msg) ∧
    (o.isTraversable = false → 0 < intraversableCount w o.location →
      ∃ msg, registerEnvObject w o = .error msg) ∧
    (∀ w2, registerAgent w a = .ok w2 → OccupancyInv w2) ∧
    (∀ w2, registerEnvObject w o = .ok w2 → OccupancyInv w2) ∧
    OccupancyInv (stepWorld goal decideFn w).1 := by
  refine ⟨?_, ?_, ?_, ?_, ?_⟩
  · intro hintrav hcount
    refine ⟨"Invalid placement: location already occupied by intraversable object", ?_⟩
    rw [registerAgent, validate_reject w (.agent a) hintrav hcount]
  · intro hintrav hcount
    refine ⟨"Invalid placement: location already occupied by intraversable object", ?_⟩
    rw [registerEnvObject, validate_reject w (.obj o) hintrav hcount]
  · intro w2 hok
    rw [registerAgent] at hok
    cases hval : validateObjPlacement w (.agent a) with
    | error s =>
      rw [hval] at hok
      cases hok
    | ok u =>
      rw [hval] at hok
      cases hok
      intro c
      have hw := hinv c
      rw [intraversableCount] at hw
      rw [intraversableCount]
      simp only [List.countP_append, List.countP_cons, List.countP_nil]
      by_cases hta : a.isTraversable = true
      · have hz : (a.location == c && a.isTraversable == false) = false := by
          simp [hta]
        rw [hz]
        simp only [Bool.false_eq_true, if_false]
        omega
      · rw [Bool.not_eq_true] at hta
        have hcnt0 : intraversableCount w a.location = 0 :=
          validate_pass_count w (.agent a) hta u hval
        by_cases hca : c = a.location
        · rw [hca]
          have hc0 := hcnt0
          rw [intraversableCount] at hc0
          have hif : (a.location == a.location && a.isTraversable == false) = true := by
            simp [hta]
          rw [hif]
          simp only [if_true]
          omega
        · have hz : (a.location == c && a.isTraversable == false) = false := by
            have hb : (a.location == c) = false :=
              beq_eq_false_iff_ne.mpr (fun he => hca he.symm)
            simp [hb]
          rw [hz]
          simp only [Bool.false_eq_true, if_false]
          omega
  · intro w2 hok
    rw [registerEnvObject] at hok
    cases hval : validateObjPlacement w (.obj o) with
    | error s =>
      rw [hval] at hok
      cases hok
    | ok u =>
      rw [hval] at hok
      cases hok
      intro c
      have hw := hinv c
      rw [intraversableCount] at hw
      rw [intraversableCount]
      simp only [List.countP_append, List.countP_cons, List.countP_nil]
      by_cases hta : o.isTraversable = true
      · have hz : (o.location == c && o.isTraversable == false) = false := by
          simp [hta]
        rw [hz]
        simp only [Bool.false_eq_true, if_false]
        omega
      · rw [Bool.not_eq_true] at hta
        have hcnt0 : intraversableCount w o.location = 0 :=
          validate_pass_count w (.obj o) hta u hval
        by_cases hca : c = o.location
        · rw [hca]
          have hc0 := hcnt0
          rw [intraversableCount] at hc0
          have hif : (o.location == o.location && o.isTraversable == false) = true := by
            simp [hta]
          rw [hif]
          simp only [if_true]
          omega
        · have hz : (o.location == c && o.isTraversable == false) = false := by
            have hb : (o.location == c) = false :=
              beq_eq_false_iff_ne.mpr (fun he => hca he.symm)
            simp [hb]
          rw [hz]
          simp only [Bool.false_eq_true, if_false]
          omega
  · by_cases hdone : checkSimulationGoal goal w = true
    · simpa only [stepWorld, hdone, if_true] using hinv
    · rw [Bool.not_eq_true] at hdone
      have h1 := applyBuffer_inv (decisionPhase w decideFn) w hnd hinv
      simp only [stepWorld, hdone, Bool.false_eq_true, if_false]
      intro c
      exact h1 c

/-- Witness for the occupancy invariant on the concrete world w2 (a single
intraversable wall at (0,0)) with the colliding intraversable newcomers. -/
theorem occupancy_invariant_witness :
    ((worldIds w2).Nodup ∧ OccupancyInv w2) ∧
    ((agentClash2.isTraversable = false →
        0 < intraversableCount w2 agentClash2.location →
        ∃ msg, registerAgent w2 agentClash2 = .error msg) ∧
      (objClash2.isTraversable = false →
        0 < intraversableCount w2 objClash2.location →
        ∃ msg, registerEnvObject w2 objClash2 = .error msg) ∧
      (∀ wr, registerAgent w2 agentClash2 = .ok wr → OccupancyInv wr) ∧
      (∀ wr, registerEnvObject w2 objClash2 = .ok wr → OccupancyInv wr) ∧
      OccupancyInv (stepWorld SimulationGoal.noGoal (fun _ => none) w2).1) := by
  have hinv2 : OccupancyInv w2 := by
    intro c
    rw [intraversableCount]
    simp [w2, List.countP_cons]
    split
    · omega
    · omega
  exact ⟨⟨by decide, hinv2⟩,
    occupancy_invariant w2 agentClash2 objClash2 SimulationGoal.noGoal
      (fun _ => none) (by decide) hinv2⟩
